import Mathlib

/-!
Shallow embedding of the organization quota-usage accounting core
(`apps/api/src/organization/services/organization-usage.service.ts`).

Modelling conventions:
* The Redis store is modelled per organization: every key the service touches
  for a fixed `organizationId` lives in one `Store`; keys of other
  organizations are disjoint and never read or written by these operations.
* A stored string is modelled by `CVal`: either an integer (`num`) or a
  non-numeric, non-empty string (`garbage`).  The service itself only ever
  writes integers; `garbage` stands for values written by external writers,
  which the read paths defend against (`Number(x)` is `NaN`).
* A key is `Option Cell`: `none` means the key is absent (expired or never
  written); a `Cell` carries the value and its TTL (`none` = no expiry).
* Redis Lua scripts are atomic; their effect is one pure `Store → Store`
  step.  An `INCRBY`/`DECRBY` on a non-integer value raises a Redis error
  which aborts the script; script functions therefore return `Option`,
  `none` meaning the script errored (the only error point below is an
  `INCRBY` on a `garbage` cell, which is the first write of its script, so
  an errored script has written nothing).
* The distributed lock (`RedisLockProvider`, not under src/) serializes
  callers; in this sequential model acquiring and releasing it has no
  effect on the store, and the re-check of the cache under the lock reads
  the same unchanged store, so it is not repeated textually.
* `Date.now()` is passed in as the parameter `now`.
* Sandbox resource amounts (`cpu`, `mem`, `disk`) and entity counts are
  non-negative machine quantities, modelled as `Nat`.
* Entity states are opaque identifiers (`Nat`); the service is generic in
  them and only tests membership in configured state lists.  The state-set
  constants (`SANDBOX_STATES_CONSUMING_COMPUTE`, `SANDBOX_STATES_CONSUMING_DISK`,
  `SNAPSHOT_USAGE_IGNORED_STATES`, `VOLUME_USAGE_IGNORED_STATES`) are not
  under src/; they enter the model as fields of `Env`, quantified over.
-/

namespace OrgUsage

/-- Quota kinds (`OrganizationUsageQuotaType`). -/
inductive QuotaType where
  | cpu
  | memory
  | disk
  | snapshot_count
  | volume_count
  deriving DecidableEq, Repr

/-- Resource families (`OrganizationUsageResourceType`). -/
inductive ResourceType where
  | sandbox
  | snapshot
  | volume
  deriving DecidableEq, Repr

/-- Modelled from the spec: the fixed quota→family mapping of
`getResourceTypeFromQuota` (the helper module `organization-usage.helper`
is not under src/; spec §3: `cpu,memory,disk → sandbox`;
`snapshot_count → snapshot`; `volume_count → volume`). -/
def getResourceTypeFromQuota : QuotaType → ResourceType
  | .cpu => .sandbox
  | .memory => .sandbox
  | .disk => .sandbox
  | .snapshot_count => .snapshot
  | .volume_count => .volume

/-- A stored string value: an integer, or non-numeric garbage
(`Number(garbage)` is `NaN`, Lua `tonumber(garbage)` is `nil`). -/
inductive CVal where
  | num (n : Int)
  | garbage
  deriving DecidableEq, Repr

/-- One Redis key's state: its value and its remaining TTL
(`none` = the key does not expire). -/
structure Cell where
  val : CVal
  ttl : Option Nat
  deriving DecidableEq, Repr

/-- The slice of the Redis store belonging to one organization:
confirmed counters `org:{id}:quota:{type}:usage`, pending counters
`org:{id}:pending-{type}`, and staleness stamps
`org:{id}:resource:{family}:usage:fetched_at`. -/
structure Store where
  confirmed : QuotaType → Option Cell
  pending : QuotaType → Option Cell
  fetchedAt : ResourceType → Option CVal

def Store.setConfirmed (s : Store) (q : QuotaType) (c : Option Cell) : Store :=
  { s with confirmed := fun q' => if q' = q then c else s.confirmed q' }

def Store.setPending (s : Store) (q : QuotaType) (c : Option Cell) : Store :=
  { s with pending := fun q' => if q' = q then c else s.pending q' }

def Store.setFetchedAt (s : Store) (r : ResourceType) (v : Option CVal) : Store :=
  { s with fetchedAt := fun r' => if r' = r then v else s.fetchedAt r' }

/-- `CACHE_TTL_SECONDS` (60). -/
def CACHE_TTL_SECONDS : Nat := 60

/-- `CACHE_MAX_AGE_MS` (one hour). -/
def CACHE_MAX_AGE_MS : Int := 60 * 60 * 1000

/-- Redis `INCRBY key d`: a missing key is created at `d` (with no TTL);
an integer value is incremented in place (TTL untouched); a non-integer
value raises an error, modelled as `none` (`some c` = the key now holds
`c`). `DECRBY key d` is `INCRBY key (-d)`. -/
def redisIncrBy (cell : Option Cell) (d : Int) : Option Cell :=
  match cell with
  | none => some ⟨CVal.num d, none⟩
  | some ⟨CVal.num n, t⟩ => some ⟨CVal.num (n + d), t⟩
  | some ⟨CVal.garbage, _⟩ => none

/-- Lua `tonumber(redis.call("GET", key))`: `nil` for a missing key or a
non-numeric value. -/
def tonum (cell : Option Cell) : Option Int :=
  match cell with
  | some ⟨CVal.num n, _⟩ => some n
  | _ => none

/-- `true` when a cell cannot make `INCRBY`/`DECRBY` error
(absent or integer-valued). -/
def cellOk (cell : Option Cell) : Bool :=
  match cell with
  | some ⟨CVal.garbage, _⟩ => false
  | _ => true

-- ===== DATABASE PROJECTIONS (entities as read by this service) =====

/-- Projection of the `Sandbox` entity used by this service. -/
structure Sandbox where
  id : String
  organizationId : String
  state : Nat
  cpu : Nat
  mem : Nat
  disk : Nat
  deriving DecidableEq, Repr

/-- Projection of the `Snapshot` entity used by this service. -/
structure Snapshot where
  id : String
  organizationId : String
  state : Nat
  deriving DecidableEq, Repr

/-- Projection of the `Volume` entity used by this service. -/
structure Volume where
  id : String
  organizationId : String
  state : Nat
  deriving DecidableEq, Repr

/-- Projection of the `Organization` entity used by `getUsageOverview`. -/
structure Organization where
  id : String
  totalCpuQuota : Int
  totalMemoryQuota : Int
  totalDiskQuota : Int
  snapshotQuota : Int
  volumeQuota : Int
  deriving DecidableEq, Repr

/-- The service's read-only environment: the relational store contents and
the closed state-set constants (the constant modules are not under src/,
so they are parameters here; the service only tests list membership). -/
structure Env where
  computeStates : List Nat
  diskStates : List Nat
  snapshotIgnoredStates : List Nat
  volumeIgnoredStates : List Nat
  sandboxes : List Sandbox
  snapshots : List Snapshot
  volumes : List Volume
  organizations : List Organization

/-- `sandboxRepository.findOne({ where: { id } })`. -/
def findSandbox (env : Env) (id : String) : Option Sandbox :=
  env.sandboxes.find? (fun sb => sb.id == id)

-- ===== DTOs =====

/-- `SandboxUsageOverviewInternalDto`. -/
structure SandboxUsageOverview where
  currentCpuUsage : Int
  currentMemoryUsage : Int
  currentDiskUsage : Int
  deriving DecidableEq, Repr

/-- `SandboxUsageOverviewWithPendingInternalDto`. -/
structure SandboxUsageOverviewWithPending where
  currentCpuUsage : Int
  currentMemoryUsage : Int
  currentDiskUsage : Int
  pendingCpuUsage : Option Int
  pendingMemoryUsage : Option Int
  pendingDiskUsage : Option Int
  deriving DecidableEq, Repr

/-- `OrganizationUsageOverviewDto`. -/
structure OrganizationUsageOverviewDto where
  totalCpuQuota : Int
  totalMemoryQuota : Int
  totalDiskQuota : Int
  totalSnapshotQuota : Int
  totalVolumeQuota : Int
  currentCpuUsage : Int
  currentMemoryUsage : Int
  currentDiskUsage : Int
  currentSnapshotUsage : Int
  currentVolumeUsage : Int
  deriving DecidableEq, Repr

-- ===== STALENESS =====

/-- `isCacheStale`: stale when the stamp is absent, non-numeric, or older
than `CACHE_MAX_AGE_MS`. -/
def isCacheStale (s : Store) (now : Int) (r : ResourceType) : Bool :=
  match s.fetchedAt r with
  | none => true
  | some CVal.garbage => true
  | some (CVal.num t) => decide (CACHE_MAX_AGE_MS < now - t)

/-- `resetCacheStaleness`: `SET fetched_at Date.now()` (no TTL). -/
def resetCacheStaleness (s : Store) (now : Int) (r : ResourceType) : Store :=
  s.setFetchedAt r (some (CVal.num now))

-- ===== CACHED READS =====

/-- `getQuotaUsageCachedValue`: `null` when the key is absent, the value is
not a non-negative number, or the family's cache is stale. -/
def getQuotaUsageCachedValue (s : Store) (now : Int) (q : QuotaType) : Option Int :=
  match s.confirmed q with
  | none => none
  | some cell =>
    match cell.val with
    | CVal.garbage => none
    | CVal.num n =>
      if n < 0 then none
      else if isCacheStale s now (getResourceTypeFromQuota q) then none
      else some n

/-- `getQuotaPendingUsage`: `null` when the key is absent or the value is
not a non-negative number (no staleness check on pending counters). -/
def getQuotaPendingUsage (s : Store) (q : QuotaType) : Option Int :=
  match s.pending q with
  | none => none
  | some cell =>
    match cell.val with
    | CVal.garbage => none
    | CVal.num n => if n < 0 then none else some n

/-- `getCachedSandboxUsageOverview`: validates the three confirmed sandbox
values via `getQuotaUsageCachedValue`; on success the Lua script re-reads
the same three keys (in this sequential model the store is unchanged
between the two reads, so the raw values re-read are exactly the cells
whose parse was just validated). -/
def getCachedSandboxUsageOverview (s : Store) (now : Int) :
    Option SandboxUsageOverview :=
  match getQuotaUsageCachedValue s now QuotaType.cpu,
      getQuotaUsageCachedValue s now QuotaType.memory,
      getQuotaUsageCachedValue s now QuotaType.disk with
  | some c, some m, some d => some ⟨c, m, d⟩
  | _, _, _ => none

/-- `getCachedSandboxUsageOverviewWithPending`: one script GETs all six
keys; any absent current key ⇒ miss; stale sandbox family ⇒ miss; a
current value that is not a non-negative number ⇒ miss; pending values
are kept only when they parse as non-negative numbers, else `null`. -/
def getCachedSandboxUsageOverviewWithPending (s : Store) (now : Int) :
    Option SandboxUsageOverviewWithPending :=
  match s.confirmed QuotaType.cpu, s.confirmed QuotaType.memory,
      s.confirmed QuotaType.disk with
  | some ccpu, some cmem, some cdisk =>
    if isCacheStale s now ResourceType.sandbox then none
    else
      match ccpu.val, cmem.val, cdisk.val with
      | CVal.num pc, CVal.num pm, CVal.num pd =>
        if pc < 0 ∨ pm < 0 ∨ pd < 0 then none
        else
          some ⟨pc, pm, pd,
            getQuotaPendingUsage s QuotaType.cpu,
            getQuotaPendingUsage s QuotaType.memory,
            getQuotaPendingUsage s QuotaType.disk⟩
      | _, _, _ => none
  | _, _, _ => none

/-- `getCachedSandboxPendingUsageOverview`. -/
def getCachedSandboxPendingUsageOverview (s : Store) :
    Option Int × Option Int × Option Int :=
  (getQuotaPendingUsage s QuotaType.cpu,
   getQuotaPendingUsage s QuotaType.memory,
   getQuotaPendingUsage s QuotaType.disk)

/-- `getCachedSnapshotUsageOverview` (`currentSnapshotUsage`). -/
def getCachedSnapshotUsageOverview (s : Store) (now : Int) : Option Int :=
  getQuotaUsageCachedValue s now QuotaType.snapshot_count

/-- `getCachedVolumeUsageOverview` (`currentVolumeUsage`). -/
def getCachedVolumeUsageOverview (s : Store) (now : Int) : Option Int :=
  getQuotaUsageCachedValue s now QuotaType.volume_count

-- ===== DB FETCH + CACHE WRITE-THROUGH =====

/-- `fetchSandboxUsageFromDb`: the aggregation
`SUM(CASE WHEN state IN computeStates THEN cpu/mem ELSE 0 END)` /
`SUM(CASE WHEN state IN diskStates THEN disk ELSE 0 END)` over the
organization's sandboxes (missing aggregate ⇒ 0), then `SETEX` of the
three confirmed keys and a staleness reset for the `sandbox` family. -/
def fetchSandboxUsageFromDb (env : Env) (s : Store) (orgId : String) (now : Int) :
    SandboxUsageOverview × Store :=
  let mine := env.sandboxes.filter (fun sb => sb.organizationId == orgId)
  let cpuUsage : Nat :=
    ((mine.filter (fun sb => env.computeStates.contains sb.state)).map Sandbox.cpu).sum
  let memoryUsage : Nat :=
    ((mine.filter (fun sb => env.computeStates.contains sb.state)).map Sandbox.mem).sum
  let diskUsage : Nat :=
    ((mine.filter (fun sb => env.diskStates.contains sb.state)).map Sandbox.disk).sum
  let s1 :=
    ((s.setConfirmed QuotaType.cpu
        (some ⟨CVal.num cpuUsage, some CACHE_TTL_SECONDS⟩)).setConfirmed QuotaType.memory
        (some ⟨CVal.num memoryUsage, some CACHE_TTL_SECONDS⟩)).setConfirmed QuotaType.disk
        (some ⟨CVal.num diskUsage, some CACHE_TTL_SECONDS⟩)
  let s2 := resetCacheStaleness s1 now ResourceType.sandbox
  (⟨cpuUsage, memoryUsage, diskUsage⟩, s2)

/-- `fetchSnapshotUsageFromDb`: `COUNT` of the organization's snapshots with
`state NOT IN SNAPSHOT_USAGE_IGNORED_STATES`, then `SETEX` of the
`snapshot_count` key and a staleness reset for the `snapshot` family. -/
def fetchSnapshotUsageFromDb (env : Env) (s : Store) (orgId : String) (now : Int) :
    Int × Store :=
  let n : Nat :=
    (env.snapshots.filter (fun sn =>
      sn.organizationId == orgId && !(env.snapshotIgnoredStates.contains sn.state))).length
  let s1 := s.setConfirmed QuotaType.snapshot_count (some ⟨CVal.num n, some CACHE_TTL_SECONDS⟩)
  let s2 := resetCacheStaleness s1 now ResourceType.snapshot
  ((n : Int), s2)

/-- `fetchVolumeUsageFromDb`: `COUNT` of the organization's volumes with
`state NOT IN VOLUME_USAGE_IGNORED_STATES`, then `SETEX` of the
`volume_count` key and a staleness reset for the `volume` family. -/
def fetchVolumeUsageFromDb (env : Env) (s : Store) (orgId : String) (now : Int) :
    Int × Store :=
  let n : Nat :=
    (env.volumes.filter (fun vo =>
      vo.organizationId == orgId && !(env.volumeIgnoredStates.contains vo.state))).length
  let s1 := s.setConfirmed QuotaType.volume_count (some ⟨CVal.num n, some CACHE_TTL_SECONDS⟩)
  let s2 := resetCacheStaleness s1 now ResourceType.volume
  ((n : Int), s2)

-- ===== EXCLUSION =====

/-- `excludeSandboxFromUsageOverview`: look the sandbox up by id; if absent,
return the overview unchanged; otherwise subtract cpu/mem when its current
state is in the compute set and disk when it is in the disk set, clamping
each component at 0. -/
def excludeSandboxFromUsageOverview (env : Env) (usageOverview : SandboxUsageOverview)
    (excludeSandboxId : String) : SandboxUsageOverview :=
  match findSandbox env excludeSandboxId with
  | none => usageOverview
  | some excludedSandbox =>
    let cpuToSubtract : Int :=
      if env.computeStates.contains excludedSandbox.state then excludedSandbox.cpu else 0
    let memToSubtract : Int :=
      if env.computeStates.contains excludedSandbox.state then excludedSandbox.mem else 0
    let diskToSubtract : Int :=
      if env.diskStates.contains excludedSandbox.state then excludedSandbox.disk else 0
    { usageOverview with
      currentCpuUsage := max 0 (usageOverview.currentCpuUsage - cpuToSubtract)
      currentMemoryUsage := max 0 (usageOverview.currentMemoryUsage - memToSubtract)
      currentDiskUsage := max 0 (usageOverview.currentDiskUsage - diskToSubtract) }

/-- `excludeSandboxFromUsageOverviewWithPending`: same arithmetic on the
current values; the pending fields are not touched. -/
def excludeSandboxFromUsageOverviewWithPending (env : Env)
    (usageOverview : SandboxUsageOverviewWithPending)
    (excludeSandboxId : String) : SandboxUsageOverviewWithPending :=
  match findSandbox env excludeSandboxId with
  | none => usageOverview
  | some excludedSandbox =>
    let cpuToSubtract : Int :=
      if env.computeStates.contains excludedSandbox.state then excludedSandbox.cpu else 0
    let memToSubtract : Int :=
      if env.computeStates.contains excludedSandbox.state then excludedSandbox.mem else 0
    let diskToSubtract : Int :=
      if env.diskStates.contains excludedSandbox.state then excludedSandbox.disk else 0
    { usageOverview with
      currentCpuUsage := max 0 (usageOverview.currentCpuUsage - cpuToSubtract)
      currentMemoryUsage := max 0 (usageOverview.currentMemoryUsage - memToSubtract)
      currentDiskUsage := max 0 (usageOverview.currentDiskUsage - diskToSubtract) }

-- ===== PUBLIC GET OPERATIONS =====

/-- `getSandboxUsageOverview`: cache hit (exclusion applied if requested),
else lock, re-check (the unchanged store gives the same miss), fetch from
db and apply exclusion if requested. -/
def getSandboxUsageOverview (env : Env) (s : Store) (now : Int) (orgId : String)
    (excludeSandboxId : Option String) : SandboxUsageOverview × Store :=
  match getCachedSandboxUsageOverview s now with
  | some cached =>
    (match excludeSandboxId with
     | some ex => excludeSandboxFromUsageOverview env cached ex
     | none => cached, s)
  | none =>
    let fetched := fetchSandboxUsageFromDb env s orgId now
    (match excludeSandboxId with
     | some ex => excludeSandboxFromUsageOverview env fetched.1 ex
     | none => fetched.1, fetched.2)

/-- `getSnapshotUsageOverview` (`currentSnapshotUsage`). -/
def getSnapshotUsageOverview (env : Env) (s : Store) (now : Int) (orgId : String) :
    Int × Store :=
  match getCachedSnapshotUsageOverview s now with
  | some cached => (cached, s)
  | none => fetchSnapshotUsageFromDb env s orgId now

/-- `getVolumeUsageOverview` (`currentVolumeUsage`). -/
def getVolumeUsageOverview (env : Env) (s : Store) (now : Int) (orgId : String) :
    Int × Store :=
  match getCachedVolumeUsageOverview s now with
  | some cached => (cached, s)
  | none => fetchVolumeUsageFromDb env s orgId now

/-- `getSandboxUsageOverviewWithPending`: cached six-key read (exclusion
applied if requested), else lock, re-check, fetch current usage from db,
read the pending counters, combine, apply exclusion if requested. -/
def getSandboxUsageOverviewWithPending (env : Env) (s : Store) (now : Int)
    (orgId : String) (excludeSandboxId : Option String) :
    SandboxUsageOverviewWithPending × Store :=
  match getCachedSandboxUsageOverviewWithPending s now with
  | some cached =>
    (match excludeSandboxId with
     | some ex => excludeSandboxFromUsageOverviewWithPending env cached ex
     | none => cached, s)
  | none =>
    let fetched := fetchSandboxUsageFromDb env s orgId now
    let combined : SandboxUsageOverviewWithPending :=
      ⟨fetched.1.currentCpuUsage, fetched.1.currentMemoryUsage,
        fetched.1.currentDiskUsage,
        getQuotaPendingUsage fetched.2 QuotaType.cpu,
        getQuotaPendingUsage fetched.2 QuotaType.memory,
        getQuotaPendingUsage fetched.2 QuotaType.disk⟩
    (match excludeSandboxId with
     | some ex => excludeSandboxFromUsageOverviewWithPending env combined ex
     | none => combined, fetched.2)

-- ===== getUsageOverview =====

/-- Errors surfaced by `getUsageOverview`. -/
inductive UsageError where
  | badRequest
  | notFound
  deriving DecidableEq, Repr

/-- The merged DTO built by `getUsageOverview` once the organization is
resolved: quota limits from the entity plus the three family overviews
(the three reads thread the store). -/
def getUsageOverviewResolved (env : Env) (s : Store) (now : Int) (orgId : String)
    (organization : Organization) : OrganizationUsageOverviewDto × Store :=
  let r1 := getSandboxUsageOverview env s now orgId none
  let r2 := getSnapshotUsageOverview env r1.2 now orgId
  let r3 := getVolumeUsageOverview env r2.2 now orgId
  (⟨organization.totalCpuQuota, organization.totalMemoryQuota,
    organization.totalDiskQuota, organization.snapshotQuota, organization.volumeQuota,
    r1.1.currentCpuUsage, r1.1.currentMemoryUsage,
    r1.1.currentDiskUsage, r2.1, r3.1⟩, r3.2)

/-- `getUsageOverview`: `BadRequest` when a supplied organization's id does
not match; otherwise resolve the entity (from the argument, or from the
repository), `NotFound` when it cannot be resolved. -/
def getUsageOverview (env : Env) (s : Store) (now : Int) (orgId : String)
    (organization : Option Organization) :
    Except UsageError (OrganizationUsageOverviewDto × Store) :=
  match organization with
  | some org =>
    if org.id ≠ orgId then Except.error UsageError.badRequest
    else Except.ok (getUsageOverviewResolved env s now orgId org)
  | none =>
    match env.organizations.find? (fun o => o.id == orgId) with
    | none => Except.error UsageError.notFound
    | some org => Except.ok (getUsageOverviewResolved env s now orgId org)

-- ===== QUOTA USAGE DELTA SCRIPT =====

/-- `updateQuotaUsage`: one Lua script; if the confirmed key exists,
`INCRBY` it by `delta` and `EXPIRE` it to `CACHE_TTL_SECONDS` (an absent
key is left absent); then, if the pending key holds a number `p > 0` and
`delta > 0`, `DECRBY` the pending key by `delta` (its TTL untouched).
`none` = the script errored on a non-integer confirmed value (before any
write).  The script is split here into its two halves,
`updateConfirmedStep` (the `EXISTS`-guarded `INCRBY`+`EXPIRE` of the
confirmed key) and `settlePendingStep` (the conditional `DECRBY` of the
pending key); `updateQuotaUsage` is their sequence. -/
def updateConfirmedStep (s : Store) (q : QuotaType) (delta : Int) : Option Store :=
  match s.confirmed q with
  | some cell =>
    match redisIncrBy (some cell) delta with
    | some c' => some (s.setConfirmed q (some ⟨c'.val, some CACHE_TTL_SECONDS⟩))
    | none => none
  | none => some s

def settlePendingStep (s1 : Store) (q : QuotaType) (delta : Int) : Option Store :=
  match tonum (s1.pending q) with
  | some p =>
    if 0 < p ∧ 0 < delta then
      match redisIncrBy (s1.pending q) (-delta) with
      | some c' => some (s1.setPending q (some c'))
      | none => none
    else some s1
  | none => some s1

def updateQuotaUsage (s : Store) (q : QuotaType) (delta : Int) : Option Store :=
  match updateConfirmedStep s q delta with
  | none => none
  | some s1 => settlePendingStep s1 q delta

-- ===== PENDING RESERVATION SCRIPTS =====

/-- The result record of `incrementPendingSandboxUsage`. -/
structure IncrementResult where
  cpuIncremented : Bool
  memoryIncremented : Bool
  diskIncremented : Bool
  deriving DecidableEq, Repr

/-- `incrementPendingSandboxUsage`: a kind is skipped only when the
excluded sandbox exists and its current state already consumes that kind
(compute set for cpu and memory, disk set for disk); the script `INCRBY`s
and `EXPIRE`s each selected pending key; the returned booleans are the
selection flags. `none` = the script errored on a non-integer value.
The script is modelled as `pendingIncrementFlags` (the flag computation)
followed by three `incrPendingStep` sections. -/
def pendingIncrementFlags (env : Env) (excludeSandboxId : Option String) :
    Bool × Bool × Bool :=
  match excludeSandboxId with
  | none => (true, true, true)
  | some ex =>
    match findSandbox env ex with
    | none => (true, true, true)
    | some excludedSandbox =>
      (!(env.computeStates.contains excludedSandbox.state),
       !(env.computeStates.contains excludedSandbox.state),
       !(env.diskStates.contains excludedSandbox.state))

/-- One guarded section of the increment script: when selected, `INCRBY`
the kind's pending key and `EXPIRE` it to `CACHE_TTL_SECONDS`. -/
def incrPendingStep (st : Store) (q : QuotaType) (sel : Bool) (amt : Int) :
    Option Store :=
  if sel then
    match redisIncrBy (st.pending q) amt with
    | some c' => some (st.setPending q (some ⟨c'.val, some CACHE_TTL_SECONDS⟩))
    | none => none
  else some st

def incrementPendingSandboxUsage (env : Env) (s : Store)
    (cpu memory disk : Int) (excludeSandboxId : Option String) :
    Option (IncrementResult × Store) :=
  let flags := pendingIncrementFlags env excludeSandboxId
  match incrPendingStep s QuotaType.cpu flags.1 cpu with
  | none => none
  | some s1 =>
    match incrPendingStep s1 QuotaType.memory flags.2.1 memory with
    | none => none
    | some s2 =>
      match incrPendingStep s2 QuotaType.disk flags.2.2 disk with
      | none => none
      | some s3 =>
        some (⟨flags.1, flags.2.1, flags.2.2⟩, s3)

/-- `decrementPendingSandboxUsage`: an unsupplied amount is passed to the
script as the string `"0"`, and `tonumber("0") = 0` is truthy in Lua, so
every one of the three `DECRBY`s executes (with amount 0 for unsupplied
kinds); no `EXPIRE` is issued. `none` = the script errored on a
non-integer value.  The script is modelled as three `decrPendingStep`
sections, one per kind; every section executes, because the guard value
`tonumber(ARGV[i])` is a number (`0` for an unsupplied kind) and numbers,
including 0, are truthy in Lua. -/
def decrPendingStep (st : Store) (q : QuotaType) (amt : Int) : Option Store :=
  match redisIncrBy (st.pending q) (-amt) with
  | some c' => some (st.setPending q (some c'))
  | none => none

def decrementPendingSandboxUsage (s : Store)
    (cpu memory disk : Option Int) : Option Store :=
  match decrPendingStep s QuotaType.cpu (cpu.getD 0) with
  | none => none
  | some s1 =>
    match decrPendingStep s1 QuotaType.memory (memory.getD 0) with
    | none => none
    | some s2 => decrPendingStep s2 QuotaType.disk (disk.getD 0)

-- ===== EVENT SINK =====

/-- `calculateQuotaUsageDelta`: `+amount` when entering the consume set,
`-amount` when leaving it, `0` otherwise. -/
def calculateQuotaUsageDelta (resourceAmount : Int) (oldState newState : Nat)
    (statesConsumingResource : List Nat) : Int :=
  let wasConsumingResource := statesConsumingResource.contains oldState
  let isConsumingResource := statesConsumingResource.contains newState
  if !wasConsumingResource && isConsumingResource then resourceAmount
  else if wasConsumingResource && !isConsumingResource then -resourceAmount
  else 0

/-- `handleSnapshotStateUpdated`: the handler passes
`SNAPSHOT_USAGE_IGNORED_STATES` itself as `statesConsumingResource` and
applies the resulting delta to `snapshot_count` when non-zero.  The
per-entity lock is elided (sequential model); a script error is caught and
swallowed, leaving the store as the script left it (the only error point
is before any write, so the store is unchanged). -/
def handleSnapshotStateUpdated (env : Env) (s : Store)
    (oldState newState : Nat) : Store :=
  let countDelta := calculateQuotaUsageDelta 1 oldState newState env.snapshotIgnoredStates
  if countDelta ≠ 0 then
    (updateQuotaUsage s QuotaType.snapshot_count countDelta).getD s
  else s

/-- `handleVolumeStateUpdated`: as the snapshot handler, with
`VOLUME_USAGE_IGNORED_STATES` and `volume_count`. -/
def handleVolumeStateUpdated (env : Env) (s : Store)
    (oldState newState : Nat) : Store :=
  let countDelta := calculateQuotaUsageDelta 1 oldState newState env.volumeIgnoredStates
  if countDelta ≠ 0 then
    (updateQuotaUsage s QuotaType.volume_count countDelta).getD s
  else s

-- ===== SPEC-SIDE DEFINITIONS (refinement targets, from the claims' words) =====

/-- The count delta exactly as claim C1 states it: `+1` when `oldState` is
ignored and `newState` is not ignored, `-1` when `oldState` is not ignored
and `newState` is ignored, `0` otherwise (this is `calculateDelta` with the
complement of the ignored set as the consume set). -/
def specCountDeltaFromIgnored (ignored : List Nat) (oldState newState : Nat) : Int :=
  if ignored.contains oldState && !(ignored.contains newState) then 1
  else if !(ignored.contains oldState) && ignored.contains newState then -1
  else 0

/-- The exclusion delta exactly as claim C4 (spec I5) states it, by its
four cases on the excluded sandbox's state σ and amounts (c,m,d):
(c,m,0) if σ∈COMPUTE∧σ∉DISK; (c,m,d) if σ∈COMPUTE∧σ∈DISK;
(0,0,d) if σ∈DISK∧σ∉COMPUTE; (0,0,0) otherwise. -/
def specExclusionDelta (env : Env) (sb : Sandbox) : Int × Int × Int :=
  if env.computeStates.contains sb.state && !(env.diskStates.contains sb.state) then
    ((sb.cpu : Int), (sb.mem : Int), 0)
  else if env.computeStates.contains sb.state && env.diskStates.contains sb.state then
    ((sb.cpu : Int), (sb.mem : Int), (sb.disk : Int))
  else if env.diskStates.contains sb.state && !(env.computeStates.contains sb.state) then
    (0, 0, (sb.disk : Int))
  else (0, 0, 0)

/-- Claim C6's skip condition: an excluded sandbox exists and its current
state is in the given consume set. -/
def excludedSandboxConsumes (env : Env) (excludeSandboxId : Option String)
    (states : List Nat) : Bool :=
  match excludeSandboxId with
  | none => false
  | some ex =>
    match findSandbox env ex with
    | none => false
    | some sb => states.contains sb.state

/-- The integer value of a pending counter with the spec's
"absence implies zero" reading (spec §3, PendingCounter). -/
def pendingIntValue (s : Store) (q : QuotaType) : Int :=
  (tonum (s.pending q)).getD 0

-- ===== STORE UPDATE LEMMAS =====

theorem setConfirmed_confirmed_self (s : Store) (q : QuotaType) (c : Option Cell) :
    (s.setConfirmed q c).confirmed q = c := by
  simp [Store.setConfirmed]

theorem setConfirmed_confirmed_ne (s : Store) (q q' : QuotaType) (c : Option Cell)
    (h : q' ≠ q) : (s.setConfirmed q c).confirmed q' = s.confirmed q' := by
  simp [Store.setConfirmed, h]

theorem setConfirmed_pending (s : Store) (q q' : QuotaType) (c : Option Cell) :
    (s.setConfirmed q c).pending q' = s.pending q' := rfl

theorem setPending_pending_self (s : Store) (q : QuotaType) (c : Option Cell) :
    (s.setPending q c).pending q = c := by
  simp [Store.setPending]

theorem setPending_pending_ne (s : Store) (q q' : QuotaType) (c : Option Cell)
    (h : q' ≠ q) : (s.setPending q c).pending q' = s.pending q' := by
  simp [Store.setPending, h]

theorem setPending_confirmed (s : Store) (q q' : QuotaType) (c : Option Cell) :
    (s.setPending q c).confirmed q' = s.confirmed q' := rfl

-- ===== NON-NEGATIVITY HELPER LEMMAS =====

theorem getQuotaUsageCachedValue_nonneg {s : Store} {now : Int} {q : QuotaType} {v : Int}
    (h : getQuotaUsageCachedValue s now q = some v) : 0 ≤ v := by
  unfold getQuotaUsageCachedValue at h
  repeat' split at h
  all_goals simp_all

theorem getQuotaPendingUsage_getD_nonneg (s : Store) (q : QuotaType) :
    0 ≤ (getQuotaPendingUsage s q).getD 0 := by
  unfold getQuotaPendingUsage
  repeat' split
  all_goals simp_all

theorem getCachedSandboxUsageOverview_nonneg {s : Store} {now : Int}
    {ov : SandboxUsageOverview} (h : getCachedSandboxUsageOverview s now = some ov) :
    0 ≤ ov.currentCpuUsage ∧ 0 ≤ ov.currentMemoryUsage ∧ 0 ≤ ov.currentDiskUsage := by
  unfold getCachedSandboxUsageOverview at h
  split at h
  · next hc hm hd =>
    cases h
    exact ⟨getQuotaUsageCachedValue_nonneg hc, getQuotaUsageCachedValue_nonneg hm,
      getQuotaUsageCachedValue_nonneg hd⟩
  · simp at h

theorem getCachedWithPending_nonneg {s : Store} {now : Int}
    {ov : SandboxUsageOverviewWithPending}
    (h : getCachedSandboxUsageOverviewWithPending s now = some ov) :
    0 ≤ ov.currentCpuUsage ∧ 0 ≤ ov.currentMemoryUsage ∧ 0 ≤ ov.currentDiskUsage ∧
    0 ≤ ov.pendingCpuUsage.getD 0 ∧ 0 ≤ ov.pendingMemoryUsage.getD 0 ∧
    0 ≤ ov.pendingDiskUsage.getD 0 := by
  unfold getCachedSandboxUsageOverviewWithPending at h
  repeat' split at h
  all_goals cases h
  refine ⟨?_, ?_, ?_, ?_, ?_, ?_⟩ <;> simp <;>
    first
      | omega
      | exact getQuotaPendingUsage_getD_nonneg ..

theorem fetchSandboxUsageFromDb_nonneg (env : Env) (s : Store) (orgId : String) (now : Int) :
    0 ≤ (fetchSandboxUsageFromDb env s orgId now).1.currentCpuUsage ∧
    0 ≤ (fetchSandboxUsageFromDb env s orgId now).1.currentMemoryUsage ∧
    0 ≤ (fetchSandboxUsageFromDb env s orgId now).1.currentDiskUsage := by
  unfold fetchSandboxUsageFromDb
  refine ⟨?_, ?_, ?_⟩ <;> exact Int.natCast_nonneg _

theorem excludeSandboxFromUsageOverview_nonneg (env : Env)
    (ov : SandboxUsageOverview) (ex : String)
    (h : 0 ≤ ov.currentCpuUsage ∧ 0 ≤ ov.currentMemoryUsage ∧ 0 ≤ ov.currentDiskUsage) :
    0 ≤ (excludeSandboxFromUsageOverview env ov ex).currentCpuUsage ∧
    0 ≤ (excludeSandboxFromUsageOverview env ov ex).currentMemoryUsage ∧
    0 ≤ (excludeSandboxFromUsageOverview env ov ex).currentDiskUsage := by
  unfold excludeSandboxFromUsageOverview
  split
  · exact h
  · exact ⟨le_max_left _ _, le_max_left _ _, le_max_left _ _⟩

theorem excludeWithPending_nonneg (env : Env)
    (ov : SandboxUsageOverviewWithPending) (ex : String)
    (h : 0 ≤ ov.currentCpuUsage ∧ 0 ≤ ov.currentMemoryUsage ∧ 0 ≤ ov.currentDiskUsage) :
    0 ≤ (excludeSandboxFromUsageOverviewWithPending env ov ex).currentCpuUsage ∧
    0 ≤ (excludeSandboxFromUsageOverviewWithPending env ov ex).currentMemoryUsage ∧
    0 ≤ (excludeSandboxFromUsageOverviewWithPending env ov ex).currentDiskUsage := by
  unfold excludeSandboxFromUsageOverviewWithPending
  split
  · exact h
  · exact ⟨le_max_left _ _, le_max_left _ _, le_max_left _ _⟩

theorem excludeWithPending_pending_eq (env : Env)
    (ov : SandboxUsageOverviewWithPending) (ex : String) :
    (excludeSandboxFromUsageOverviewWithPending env ov ex).pendingCpuUsage = ov.pendingCpuUsage ∧
    (excludeSandboxFromUsageOverviewWithPending env ov ex).pendingMemoryUsage = ov.pendingMemoryUsage ∧
    (excludeSandboxFromUsageOverviewWithPending env ov ex).pendingDiskUsage = ov.pendingDiskUsage := by
  unfold excludeSandboxFromUsageOverviewWithPending
  split <;> exact ⟨rfl, rfl, rfl⟩

theorem getSandboxUsageOverview_nonneg (env : Env) (s : Store) (now : Int)
    (orgId : String) (ex : Option String) :
    0 ≤ (getSandboxUsageOverview env s now orgId ex).1.currentCpuUsage ∧
    0 ≤ (getSandboxUsageOverview env s now orgId ex).1.currentMemoryUsage ∧
    0 ≤ (getSandboxUsageOverview env s now orgId ex).1.currentDiskUsage := by
  unfold getSandboxUsageOverview
  cases hc : getCachedSandboxUsageOverview s now with
  | some cached =>
    have hnn := getCachedSandboxUsageOverview_nonneg hc
    cases ex with
    | none => simpa using hnn
    | some e => simpa using excludeSandboxFromUsageOverview_nonneg env cached e hnn
  | none =>
    have hnn := fetchSandboxUsageFromDb_nonneg env s orgId now
    cases ex with
    | none => simpa using hnn
    | some e =>
      simpa using excludeSandboxFromUsageOverview_nonneg env
        (fetchSandboxUsageFromDb env s orgId now).1 e hnn

theorem getSnapshotUsageOverview_nonneg (env : Env) (s : Store) (now : Int)
    (orgId : String) :
    0 ≤ (getSnapshotUsageOverview env s now orgId).1 := by
  unfold getSnapshotUsageOverview
  cases hc : getCachedSnapshotUsageOverview s now with
  | some v =>
    unfold getCachedSnapshotUsageOverview at hc
    simpa using getQuotaUsageCachedValue_nonneg hc
  | none =>
    simp only [fetchSnapshotUsageFromDb]
    exact Int.natCast_nonneg _

theorem getVolumeUsageOverview_nonneg (env : Env) (s : Store) (now : Int)
    (orgId : String) :
    0 ≤ (getVolumeUsageOverview env s now orgId).1 := by
  unfold getVolumeUsageOverview
  cases hc : getCachedVolumeUsageOverview s now with
  | some v =>
    unfold getCachedVolumeUsageOverview at hc
    simpa using getQuotaUsageCachedValue_nonneg hc
  | none =>
    simp only [fetchVolumeUsageFromDb]
    exact Int.natCast_nonneg _

theorem getSandboxUsageOverviewWithPending_nonneg (env : Env) (s : Store) (now : Int)
    (orgId : String) (ex : Option String) :
    0 ≤ (getSandboxUsageOverviewWithPending env s now orgId ex).1.currentCpuUsage ∧
    0 ≤ (getSandboxUsageOverviewWithPending env s now orgId ex).1.currentMemoryUsage ∧
    0 ≤ (getSandboxUsageOverviewWithPending env s now orgId ex).1.currentDiskUsage ∧
    0 ≤ (getSandboxUsageOverviewWithPending env s now orgId ex).1.pendingCpuUsage.getD 0 ∧
    0 ≤ (getSandboxUsageOverviewWithPending env s now orgId ex).1.pendingMemoryUsage.getD 0 ∧
    0 ≤ (getSandboxUsageOverviewWithPending env s now orgId ex).1.pendingDiskUsage.getD 0 := by
  unfold getSandboxUsageOverviewWithPending
  cases hc : getCachedSandboxUsageOverviewWithPending s now with
  | some cached =>
    have hnn := getCachedWithPending_nonneg hc
    cases ex with
    | none => simpa using hnn
    | some e =>
      have h1 := excludeWithPending_nonneg env cached e ⟨hnn.1, hnn.2.1, hnn.2.2.1⟩
      have h2 := excludeWithPending_pending_eq env cached e
      simp only []
      refine ⟨by simpa using h1.1, by simpa using h1.2.1, by simpa using h1.2.2, ?_, ?_, ?_⟩ <;>
        simp only [h2.1, h2.2.1, h2.2.2]
      · simpa using hnn.2.2.2.1
      · simpa using hnn.2.2.2.2.1
      · simpa using hnn.2.2.2.2.2
  | none =>
    have hf := fetchSandboxUsageFromDb_nonneg env s orgId now
    set combined : SandboxUsageOverviewWithPending :=
      ⟨(fetchSandboxUsageFromDb env s orgId now).1.currentCpuUsage,
       (fetchSandboxUsageFromDb env s orgId now).1.currentMemoryUsage,
       (fetchSandboxUsageFromDb env s orgId now).1.currentDiskUsage,
       getQuotaPendingUsage (fetchSandboxUsageFromDb env s orgId now).2 QuotaType.cpu,
       getQuotaPendingUsage (fetchSandboxUsageFromDb env s orgId now).2 QuotaType.memory,
       getQuotaPendingUsage (fetchSandboxUsageFromDb env s orgId now).2 QuotaType.disk⟩ with hcomb
    have hcnn : 0 ≤ combined.currentCpuUsage ∧ 0 ≤ combined.currentMemoryUsage ∧
        0 ≤ combined.currentDiskUsage := by
      rw [hcomb]
      exact hf
    cases ex with
    | none =>
      refine ⟨by simpa using hcnn.1, by simpa using hcnn.2.1, by simpa using hcnn.2.2,
        ?_, ?_, ?_⟩ <;>
        exact getQuotaPendingUsage_getD_nonneg ..
    | some e =>
      have h1 := excludeWithPending_nonneg env combined e hcnn
      have h2 := excludeWithPending_pending_eq env combined e
      refine ⟨by simpa using h1.1, by simpa using h1.2.1, by simpa using h1.2.2, ?_, ?_, ?_⟩ <;>
        simp only [h2.1, h2.2.1, h2.2.2, hcomb] <;>
        exact getQuotaPendingUsage_getD_nonneg ..

/-- Claim C3: for every organization and every cache/store state, every
public getXUsageOverview operation (getSandboxUsageOverview,
getSnapshotUsageOverview, getVolumeUsageOverview,
getSandboxUsageOverviewWithPending) returns only non-negative numeric
usage values; a negative stored counter is never surfaced to the caller
(pending values that are returned, when not null, are also non-negative,
expressed through `Option.getD 0`). -/
theorem usage_overview_nonneg (env : Env) (s : Store) (now : Int) (orgId : String)
    (ex : Option String) :
    (0 ≤ (getSandboxUsageOverview env s now orgId ex).1.currentCpuUsage ∧
     0 ≤ (getSandboxUsageOverview env s now orgId ex).1.currentMemoryUsage ∧
     0 ≤ (getSandboxUsageOverview env s now orgId ex).1.currentDiskUsage) ∧
    0 ≤ (getSnapshotUsageOverview env s now orgId).1 ∧
    0 ≤ (getVolumeUsageOverview env s now orgId).1 ∧
    (0 ≤ (getSandboxUsageOverviewWithPending env s now orgId ex).1.currentCpuUsage ∧
     0 ≤ (getSandboxUsageOverviewWithPending env s now orgId ex).1.currentMemoryUsage ∧
     0 ≤ (getSandboxUsageOverviewWithPending env s now orgId ex).1.currentDiskUsage) ∧
    (0 ≤ (getSandboxUsageOverviewWithPending env s now orgId ex).1.pendingCpuUsage.getD 0 ∧
     0 ≤ (getSandboxUsageOverviewWithPending env s now orgId ex).1.pendingMemoryUsage.getD 0 ∧
     0 ≤ (getSandboxUsageOverviewWithPending env s now orgId ex).1.pendingDiskUsage.getD 0) := by
  have hwp := getSandboxUsageOverviewWithPending_nonneg env s now orgId ex
  exact ⟨getSandboxUsageOverview_nonneg env s now orgId ex,
    getSnapshotUsageOverview_nonneg env s now orgId,
    getVolumeUsageOverview_nonneg env s now orgId,
    ⟨hwp.1, hwp.2.1, hwp.2.2.1⟩,
    hwp.2.2.2.1, hwp.2.2.2.2.1, hwp.2.2.2.2.2⟩

theorem excludeSandboxFromUsageOverview_eq_clamp (env : Env)
    (ov : SandboxUsageOverview) (ex : String) (sb : Sandbox)
    (h : findSandbox env ex = some sb) :
    excludeSandboxFromUsageOverview env ov ex =
      ⟨max 0 (ov.currentCpuUsage - (specExclusionDelta env sb).1),
       max 0 (ov.currentMemoryUsage - (specExclusionDelta env sb).2.1),
       max 0 (ov.currentDiskUsage - (specExclusionDelta env sb).2.2)⟩ := by
  unfold excludeSandboxFromUsageOverview specExclusionDelta
  rw [h]
  by_cases hcS : sb.state ∈ env.computeStates <;>
    by_cases hdS : sb.state ∈ env.diskStates <;>
      simp [hcS, hdS]

/-- Claim C4: for a sandbox X present in the database with state σ and
amounts (c,m,d), `getSandboxUsageOverview(O, excludeSandboxId=X)` returns
`max(0, full − Δ)` componentwise, where `full` is the overview of the same
call without exclusion and Δ is the claim's four-case delta
(`specExclusionDelta`); and in `getSandboxUsageOverviewWithPending` the
pending values are unchanged by the exclusion. -/
theorem exclusion_clamp_correct (env : Env) (s : Store) (now : Int) (orgId X : String)
    (sb : Sandbox) (h : findSandbox env X = some sb) :
    ((getSandboxUsageOverview env s now orgId (some X)).1.currentCpuUsage =
       max 0 ((getSandboxUsageOverview env s now orgId none).1.currentCpuUsage -
         (specExclusionDelta env sb).1) ∧
     (getSandboxUsageOverview env s now orgId (some X)).1.currentMemoryUsage =
       max 0 ((getSandboxUsageOverview env s now orgId none).1.currentMemoryUsage -
         (specExclusionDelta env sb).2.1) ∧
     (getSandboxUsageOverview env s now orgId (some X)).1.currentDiskUsage =
       max 0 ((getSandboxUsageOverview env s now orgId none).1.currentDiskUsage -
         (specExclusionDelta env sb).2.2)) ∧
    ((getSandboxUsageOverviewWithPending env s now orgId (some X)).1.pendingCpuUsage =
       (getSandboxUsageOverviewWithPending env s now orgId none).1.pendingCpuUsage ∧
     (getSandboxUsageOverviewWithPending env s now orgId (some X)).1.pendingMemoryUsage =
       (getSandboxUsageOverviewWithPending env s now orgId none).1.pendingMemoryUsage ∧
     (getSandboxUsageOverviewWithPending env s now orgId (some X)).1.pendingDiskUsage =
       (getSandboxUsageOverviewWithPending env s now orgId none).1.pendingDiskUsage) := by
  constructor
  · unfold getSandboxUsageOverview
    cases hc : getCachedSandboxUsageOverview s now with
    | some cached =>
      simp only []
      rw [excludeSandboxFromUsageOverview_eq_clamp env cached X sb h]
      exact ⟨rfl, rfl, rfl⟩
    | none =>
      simp only []
      rw [excludeSandboxFromUsageOverview_eq_clamp env
        (fetchSandboxUsageFromDb env s orgId now).1 X sb h]
      exact ⟨rfl, rfl, rfl⟩
  · unfold getSandboxUsageOverviewWithPending
    cases hc : getCachedSandboxUsageOverviewWithPending s now with
    | some cached =>
      simpa using excludeWithPending_pending_eq env cached X
    | none =>
      simpa using excludeWithPending_pending_eq env
        ⟨(fetchSandboxUsageFromDb env s orgId now).1.currentCpuUsage,
         (fetchSandboxUsageFromDb env s orgId now).1.currentMemoryUsage,
         (fetchSandboxUsageFromDb env s orgId now).1.currentDiskUsage,
         getQuotaPendingUsage (fetchSandboxUsageFromDb env s orgId now).2 QuotaType.cpu,
         getQuotaPendingUsage (fetchSandboxUsageFromDb env s orgId now).2 QuotaType.memory,
         getQuotaPendingUsage (fetchSandboxUsageFromDb env s orgId now).2 QuotaType.disk⟩ X

-- ===== CONCRETE FIXTURES FOR WITNESSES AND COUNTEREXAMPLES =====

/-- A store with every key absent. -/
def emptyStore : Store := ⟨fun _ => none, fun _ => none, fun _ => none⟩

/-- An environment reproducing the spec's end-to-end fixture: states are
0 = RUNNING, 2 = STOPPED, 1 = an ignored/destroyed state;
COMPUTE = {RUNNING}, DISK = {RUNNING, STOPPED}. -/
def wEnv : Env := ⟨[0], [0, 2], [1], [1],
  [⟨"S1", "O1", 0, 2, 4, 10⟩, ⟨"S2", "O1", 2, 4, 8, 20⟩],
  [⟨"N1", "O1", 0⟩], [⟨"V1", "O1", 0⟩],
  [⟨"O1", 10, 20, 30, 5, 5⟩]⟩

theorem exclusion_clamp_correct_witness :
    findSandbox wEnv "S2" = some ⟨"S2", "O1", 2, 4, 8, 20⟩ ∧
    (getSandboxUsageOverview wEnv emptyStore 0 "O1" (some "S2")).1.currentCpuUsage =
      max 0 ((getSandboxUsageOverview wEnv emptyStore 0 "O1" none).1.currentCpuUsage -
        (specExclusionDelta wEnv ⟨"S2", "O1", 2, 4, 8, 20⟩).1) :=
  ⟨by decide,
    (exclusion_clamp_correct wEnv emptyStore 0 "O1" "S2" ⟨"S2", "O1", 2, 4, 8, 20⟩
      (by decide)).1.1⟩

-- ===== updateQuotaUsage STEP LEMMAS =====

theorem tonum_some {cell : Option Cell} {p : Int} (h : tonum cell = some p) :
    ∃ t, cell = some ⟨CVal.num p, t⟩ := by
  rcases cell with _ | ⟨val, t⟩
  · simp [tonum] at h
  · cases val with
    | num n =>
      simp [tonum] at h
      exact ⟨t, by rw [h]⟩
    | garbage => simp [tonum] at h

theorem settlePendingStep_exists (s1 : Store) (q : QuotaType) (delta : Int) :
    ∃ s2, settlePendingStep s1 q delta = some s2 ∧
      ∀ q', s2.confirmed q' = s1.confirmed q' := by
  unfold settlePendingStep
  cases hp : tonum (s1.pending q) with
  | none => exact ⟨s1, rfl, fun _ => rfl⟩
  | some p =>
    obtain ⟨t, hcell⟩ := tonum_some hp
    by_cases hcond : 0 < p ∧ 0 < delta
    · rw [hcell]
      simp only [hcond, if_true, redisIncrBy]
      exact ⟨_, rfl, fun q' => setPending_confirmed ..⟩
    · simp only [hcond, if_false]
      exact ⟨s1, rfl, fun _ => rfl⟩

theorem updateConfirmedStep_pending_eq {s s1 : Store} {q : QuotaType} {delta : Int}
    (h : updateConfirmedStep s q delta = some s1) :
    ∀ q', s1.pending q' = s.pending q' := by
  unfold updateConfirmedStep at h
  split at h
  · split at h
    · cases h
      exact fun q' => setConfirmed_pending ..
    · cases h
  · cases h
    exact fun _ => rfl

-- ===== CLAIM C1 (code bug): snapshot/volume state-update delta sign =====

/-- An environment whose snapshot/volume ignored sets are `{1}`, holding
one snapshot and one volume in the non-ignored state 0. -/
def bugEnvBefore : Env := ⟨[0], [0], [1], [1], [], [⟨"N1", "O", 0⟩], [⟨"V1", "O", 0⟩], []⟩

/-- The same environment after the entity transitioned into the ignored
state 1. -/
def bugEnvAfter : Env := ⟨[0], [0], [1], [1], [], [⟨"N1", "O", 1⟩], [⟨"V1", "O", 1⟩], []⟩

/-- A store whose cached `snapshot_count` is 3 (live, with TTL). -/
def bugStoreSnap : Store :=
  { emptyStore with
    confirmed := fun q =>
      if q = QuotaType.snapshot_count then some ⟨CVal.num 3, some 60⟩ else none }

/-- A store whose cached `volume_count` is 3 (live, with TTL). -/
def bugStoreVol : Store :=
  { emptyStore with
    confirmed := fun q =>
      if q = QuotaType.volume_count then some ⟨CVal.num 3, some 60⟩ else none }

/-- Claim C1 (code bug): on a transition from a non-ignored state (0) into
an ignored state (1), the handlers pass the ignored set itself as the
consume set, so the code's delta is `+1` while the claim's delta
(`specCountDeltaFromIgnored`, the complement consume set) is `-1`: the
cached count rises 3 → 4 although the database count the cache mirrors
(the `state NOT IN ignored` aggregate in the same file) falls 1 → 0, for
snapshots and volumes alike. -/
theorem snapshot_volume_delta_sign_bug :
    calculateQuotaUsageDelta 1 0 1 [1] = 1 ∧
    specCountDeltaFromIgnored [1] 0 1 = -1 ∧
    (handleSnapshotStateUpdated bugEnvBefore bugStoreSnap 0 1).confirmed
        QuotaType.snapshot_count = some ⟨CVal.num 4, some 60⟩ ∧
    (handleVolumeStateUpdated bugEnvBefore bugStoreVol 0 1).confirmed
        QuotaType.volume_count = some ⟨CVal.num 4, some 60⟩ ∧
    (fetchSnapshotUsageFromDb bugEnvBefore emptyStore "O" 0).1 = 1 ∧
    (fetchSnapshotUsageFromDb bugEnvAfter emptyStore "O" 0).1 = 0 ∧
    (fetchVolumeUsageFromDb bugEnvBefore emptyStore "O" 0).1 = 1 ∧
    (fetchVolumeUsageFromDb bugEnvAfter emptyStore "O" 0).1 = 0 := by
  decide

-- ===== CLAIM C2 (corrected): pending settlement decrements the full delta =====

/-- A store with confirmed cpu = 10 and pending cpu = 1 (both live). -/
def pendStore : Store :=
  { emptyStore with
    confirmed := fun q => if q = QuotaType.cpu then some ⟨CVal.num 10, some 60⟩ else none,
    pending := fun q => if q = QuotaType.cpu then some ⟨CVal.num 1, some 60⟩ else none }

/-- Claim C2 counterexample: with pending cpu = 1 and delta = 5, the
combined script stores pending = −4, strictly below zero, whereas a
decrement of min(1, 5) = 1 would have left 0. -/
theorem updateQuotaUsage_pending_underflow_cex :
    (updateQuotaUsage pendStore QuotaType.cpu 5).map (fun st => st.pending QuotaType.cpu)
      = some (some ⟨CVal.num (-4), some 60⟩) ∧
    (-4 : Int) < 0 ∧ (1 : Int) - min 1 5 = 0 := by
  decide

/-- Claim C2 as amended: for delta > 0 and a pending counter p > 0 (and an
absent or numeric confirmed cell, so the script completes), the combined
script decrements the pending counter by the full delta: its stored value
afterwards is p − delta (TTL untouched), which is negative when
delta > p — it is not min(p, delta) and is not clamped at zero on write. -/
theorem updateQuotaUsage_pending_full_delta (s : Store) (q : QuotaType) (delta p : Int)
    (t : Option Nat) (hconf : cellOk (s.confirmed q) = true)
    (hp : s.pending q = some ⟨CVal.num p, t⟩) (hp0 : 0 < p) (hd : 0 < delta) :
    ∃ s', updateQuotaUsage s q delta = some s' ∧
      s'.pending q = some ⟨CVal.num (p - delta), t⟩ := by
  obtain ⟨s1, hs1, hs1p⟩ : ∃ s1, updateConfirmedStep s q delta = some s1 ∧
      s1.pending q = s.pending q := by
    unfold updateConfirmedStep
    cases hc : s.confirmed q with
    | none => exact ⟨s, rfl, rfl⟩
    | some cell =>
      obtain ⟨val, ttl⟩ := cell
      cases val with
      | num n => exact ⟨_, rfl, setConfirmed_pending ..⟩
      | garbage => simp [cellOk, hc] at hconf
  refine ⟨s1.setPending q (some ⟨CVal.num (p - delta), t⟩), ?_, setPending_pending_self ..⟩
  unfold updateQuotaUsage
  rw [hs1]
  show settlePendingStep s1 q delta = _
  unfold settlePendingStep
  rw [hs1p, hp]
  simp only [tonum, redisIncrBy, hp0, hd, and_self, if_true, sub_eq_add_neg]

theorem updateQuotaUsage_pending_full_delta_witness :
    cellOk (pendStore.confirmed QuotaType.cpu) = true ∧
    pendStore.pending QuotaType.cpu = some ⟨CVal.num 1, some 60⟩ ∧
    (0 : Int) < 1 ∧ (0 : Int) < 5 ∧
    ∃ s', updateQuotaUsage pendStore QuotaType.cpu 5 = some s' ∧
      s'.pending QuotaType.cpu = some ⟨CVal.num ((1 : Int) - 5), some 60⟩ :=
  ⟨by decide, by decide, by decide, by decide,
    updateQuotaUsage_pending_full_delta pendStore QuotaType.cpu 5 1 (some 60)
      (by decide) (by decide) (by decide) (by decide)⟩

-- ===== CLAIM C5: confirmed-counter frame of updateQuotaUsage =====

/-- Claim C5: if the confirmed counter key is absent, `updateQuotaUsage`
leaves it absent (it is not created); if the key holds a number n, the
script completes with the counter incremented by delta and its TTL
refreshed to `CACHE_TTL_SECONDS`. -/
theorem updateQuotaUsage_confirmed_frame (s : Store) (q : QuotaType) (delta : Int) :
    (s.confirmed q = none →
      ∃ s', updateQuotaUsage s q delta = some s' ∧ s'.confirmed q = none) ∧
    (∀ n t, s.confirmed q = some ⟨CVal.num n, t⟩ →
      ∃ s', updateQuotaUsage s q delta = some s' ∧
        s'.confirmed q = some ⟨CVal.num (n + delta), some CACHE_TTL_SECONDS⟩) := by
  constructor
  · intro h
    have h1 : updateConfirmedStep s q delta = some s := by
      unfold updateConfirmedStep
      rw [h]
    obtain ⟨s2, hs2, hs2c⟩ := settlePendingStep_exists s q delta
    refine ⟨s2, ?_, ?_⟩
    · unfold updateQuotaUsage
      rw [h1]
      exact hs2
    · rw [hs2c q]
      exact h
  · intro n t h
    have h1 : updateConfirmedStep s q delta =
        some (s.setConfirmed q (some ⟨CVal.num (n + delta), some CACHE_TTL_SECONDS⟩)) := by
      unfold updateConfirmedStep
      rw [h]
      rfl
    obtain ⟨s2, hs2, hs2c⟩ := settlePendingStep_exists
      (s.setConfirmed q (some ⟨CVal.num (n + delta), some CACHE_TTL_SECONDS⟩)) q delta
    refine ⟨s2, ?_, ?_⟩
    · unfold updateQuotaUsage
      rw [h1]
      exact hs2
    · rw [hs2c q, setConfirmed_confirmed_self]

theorem updateQuotaUsage_confirmed_frame_witness :
    emptyStore.confirmed QuotaType.cpu = none ∧
    (∃ s', updateQuotaUsage emptyStore QuotaType.cpu 7 = some s' ∧
      s'.confirmed QuotaType.cpu = none) ∧
    pendStore.confirmed QuotaType.cpu = some ⟨CVal.num 10, some 60⟩ ∧
    (∃ s', updateQuotaUsage pendStore QuotaType.cpu 7 = some s' ∧
      s'.confirmed QuotaType.cpu = some ⟨CVal.num (10 + 7), some CACHE_TTL_SECONDS⟩) :=
  ⟨by decide,
    (updateQuotaUsage_confirmed_frame emptyStore QuotaType.cpu 7).1 (by decide),
    by decide,
    (updateQuotaUsage_confirmed_frame pendStore QuotaType.cpu 7).2 10 (some 60) (by decide)⟩

-- ===== PENDING SCRIPT STEP LEMMAS =====

theorem pendingIncrementFlags_eq (env : Env) (ex : Option String) :
    pendingIncrementFlags env ex =
      (!(excludedSandboxConsumes env ex env.computeStates),
       !(excludedSandboxConsumes env ex env.computeStates),
       !(excludedSandboxConsumes env ex env.diskStates)) := by
  cases ex with
  | none => rfl
  | some e =>
    cases hf : findSandbox env e with
    | none => simp [pendingIncrementFlags, excludedSandboxConsumes, hf]
    | some sb => simp [pendingIncrementFlags, excludedSandboxConsumes, hf]

theorem incrPendingStep_true_eq (st : Store) (q : QuotaType) (amt : Int)
    (hok : cellOk (st.pending q) = true) :
    incrPendingStep st q true amt =
      some (st.setPending q (some ⟨CVal.num ((tonum (st.pending q)).getD 0 + amt),
        some CACHE_TTL_SECONDS⟩)) := by
  unfold incrPendingStep
  rcases hcell : st.pending q with _ | ⟨val, t⟩
  · simp [redisIncrBy, tonum]
  · cases val with
    | num n => simp [redisIncrBy, tonum]
    | garbage =>
      rw [hcell] at hok
      simp [cellOk] at hok

theorem incrPendingStep_exists (st : Store) (q : QuotaType) (sel : Bool) (amt : Int)
    (hok : cellOk (st.pending q) = true) :
    ∃ st', incrPendingStep st q sel amt = some st' ∧
      (sel = true → st'.pending q =
        some ⟨CVal.num ((tonum (st.pending q)).getD 0 + amt), some CACHE_TTL_SECONDS⟩) ∧
      (sel = false → st' = st) ∧
      (∀ q', q' ≠ q → st'.pending q' = st.pending q') ∧
      cellOk (st'.pending q) = true := by
  cases sel with
  | false => exact ⟨st, rfl, fun h => Bool.noConfusion h, fun _ => rfl, fun q' _ => rfl, hok⟩
  | true =>
    refine ⟨st.setPending q (some ⟨CVal.num ((tonum (st.pending q)).getD 0 + amt),
      some CACHE_TTL_SECONDS⟩), incrPendingStep_true_eq st q amt hok,
      fun _ => setPending_pending_self .., fun h => Bool.noConfusion h,
      fun q' hq' => setPending_pending_ne _ _ _ _ hq', ?_⟩
    rw [setPending_pending_self]
    rfl

theorem decrPendingStep_eq (st : Store) (q : QuotaType) (amt : Int)
    (hok : cellOk (st.pending q) = true) :
    decrPendingStep st q amt =
      some (st.setPending q (some ⟨CVal.num ((tonum (st.pending q)).getD 0 - amt),
        (st.pending q).bind Cell.ttl⟩)) := by
  unfold decrPendingStep
  rcases hcell : st.pending q with _ | ⟨val, t⟩
  · simp [redisIncrBy, tonum, sub_eq_add_neg]
  · cases val with
    | num n => simp [redisIncrBy, tonum, sub_eq_add_neg]
    | garbage =>
      rw [hcell] at hok
      simp [cellOk] at hok

theorem decrPendingStep_exists (st : Store) (q : QuotaType) (amt : Int)
    (hok : cellOk (st.pending q) = true) :
    ∃ st', decrPendingStep st q amt = some st' ∧
      st'.pending q = some ⟨CVal.num ((tonum (st.pending q)).getD 0 - amt),
        (st.pending q).bind Cell.ttl⟩ ∧
      (∀ q', q' ≠ q → st'.pending q' = st.pending q') ∧
      cellOk (st'.pending q) = true := by
  refine ⟨st.setPending q (some ⟨CVal.num ((tonum (st.pending q)).getD 0 - amt),
    (st.pending q).bind Cell.ttl⟩), decrPendingStep_eq st q amt hok,
    setPending_pending_self .., fun q' hq' => setPending_pending_ne _ _ _ _ hq', ?_⟩
  rw [setPending_pending_self]
  rfl

-- ===== CLAIM C6: increment flags and effects =====

/-- Claim C6: `incrementPendingSandboxUsage` increments a kind's pending
counter if and only if no excluded sandbox exists whose current state
consumes that kind (compute set for cpu and memory, disk set for disk),
and the three returned booleans are true exactly for the kinds that were
incremented (an incremented kind's counter gains the amount and its TTL is
refreshed; a skipped kind's key is untouched). -/
theorem incrementPending_flags_and_effects (env : Env) (s : Store)
    (cpu memory disk : Int) (ex : Option String)
    (hc : cellOk (s.pending QuotaType.cpu) = true)
    (hm : cellOk (s.pending QuotaType.memory) = true)
    (hd : cellOk (s.pending QuotaType.disk) = true) :
    ∃ res s', incrementPendingSandboxUsage env s cpu memory disk ex = some (res, s') ∧
      res.cpuIncremented = !(excludedSandboxConsumes env ex env.computeStates) ∧
      res.memoryIncremented = !(excludedSandboxConsumes env ex env.computeStates) ∧
      res.diskIncremented = !(excludedSandboxConsumes env ex env.diskStates) ∧
      (res.cpuIncremented = true → s'.pending QuotaType.cpu =
        some ⟨CVal.num (pendingIntValue s QuotaType.cpu + cpu), some CACHE_TTL_SECONDS⟩) ∧
      (res.cpuIncremented = false → s'.pending QuotaType.cpu = s.pending QuotaType.cpu) ∧
      (res.memoryIncremented = true → s'.pending QuotaType.memory =
        some ⟨CVal.num (pendingIntValue s QuotaType.memory + memory), some CACHE_TTL_SECONDS⟩) ∧
      (res.memoryIncremented = false → s'.pending QuotaType.memory = s.pending QuotaType.memory) ∧
      (res.diskIncremented = true → s'.pending QuotaType.disk =
        some ⟨CVal.num (pendingIntValue s QuotaType.disk + disk), some CACHE_TTL_SECONDS⟩) ∧
      (res.diskIncremented = false → s'.pending QuotaType.disk = s.pending QuotaType.disk) := by
  obtain ⟨s1, hs1, h1t, h1f, h1o, h1ok⟩ :=
    incrPendingStep_exists s QuotaType.cpu (pendingIncrementFlags env ex).1 cpu hc
  have hm1 : s1.pending QuotaType.memory = s.pending QuotaType.memory :=
    h1o QuotaType.memory (by decide)
  have hd1 : s1.pending QuotaType.disk = s.pending QuotaType.disk :=
    h1o QuotaType.disk (by decide)
  obtain ⟨s2, hs2, h2t, h2f, h2o, h2ok⟩ :=
    incrPendingStep_exists s1 QuotaType.memory (pendingIncrementFlags env ex).2.1 memory
      (by rw [hm1]; exact hm)
  have hd2 : s2.pending QuotaType.disk = s.pending QuotaType.disk := by
    rw [h2o QuotaType.disk (by decide), hd1]
  have hc2 : s2.pending QuotaType.cpu = s1.pending QuotaType.cpu :=
    h2o QuotaType.cpu (by decide)
  obtain ⟨s3, hs3, h3t, h3f, h3o, h3ok⟩ :=
    incrPendingStep_exists s2 QuotaType.disk (pendingIncrementFlags env ex).2.2 disk
      (by rw [hd2]; exact hd)
  have hc3 : s3.pending QuotaType.cpu = s1.pending QuotaType.cpu := by
    rw [h3o QuotaType.cpu (by decide), hc2]
  have hm3 : s3.pending QuotaType.memory = s2.pending QuotaType.memory :=
    h3o QuotaType.memory (by decide)
  refine ⟨⟨(pendingIncrementFlags env ex).1, (pendingIncrementFlags env ex).2.1,
    (pendingIncrementFlags env ex).2.2⟩, s3, ?_, ?_, ?_, ?_, ?_, ?_, ?_, ?_, ?_, ?_⟩
  · unfold incrementPendingSandboxUsage
    simp only [hs1, hs2, hs3]
  · rw [pendingIncrementFlags_eq]
  · rw [pendingIncrementFlags_eq]
  · rw [pendingIncrementFlags_eq]
  · intro hb
    rw [hc3, h1t hb]
    rfl
  · intro hb
    rw [hc3, h1f hb]
  · intro hb
    rw [hm3, h2t hb, hm1]
    rfl
  · intro hb
    rw [hm3, h2f hb, hm1]
  · intro hb
    rw [h3t hb, hd2]
    rfl
  · intro hb
    rw [h3f hb, hd2]

theorem incrementPending_flags_and_effects_witness :
    cellOk (emptyStore.pending QuotaType.cpu) = true ∧
    (∃ res s', incrementPendingSandboxUsage wEnv emptyStore 1 2 5 (some "S2")
        = some (res, s') ∧
      res.cpuIncremented = !(excludedSandboxConsumes wEnv (some "S2") wEnv.computeStates) ∧
      res.memoryIncremented = !(excludedSandboxConsumes wEnv (some "S2") wEnv.computeStates) ∧
      res.diskIncremented = !(excludedSandboxConsumes wEnv (some "S2") wEnv.diskStates) ∧
      (res.cpuIncremented = true → s'.pending QuotaType.cpu =
        some ⟨CVal.num (pendingIntValue emptyStore QuotaType.cpu + 1), some CACHE_TTL_SECONDS⟩) ∧
      (res.cpuIncremented = false → s'.pending QuotaType.cpu = emptyStore.pending QuotaType.cpu) ∧
      (res.memoryIncremented = true → s'.pending QuotaType.memory =
        some ⟨CVal.num (pendingIntValue emptyStore QuotaType.memory + 2), some CACHE_TTL_SECONDS⟩) ∧
      (res.memoryIncremented = false → s'.pending QuotaType.memory = emptyStore.pending QuotaType.memory) ∧
      (res.diskIncremented = true → s'.pending QuotaType.disk =
        some ⟨CVal.num (pendingIntValue emptyStore QuotaType.disk + 5), some CACHE_TTL_SECONDS⟩) ∧
      (res.diskIncremented = false → s'.pending QuotaType.disk = emptyStore.pending QuotaType.disk)) :=
  ⟨by decide,
    incrementPending_flags_and_effects wEnv emptyStore 1 2 5 (some "S2")
      (by decide) (by decide) (by decide)⟩

-- ===== CLAIM C7: increment/decrement round trip =====

/-- Claim C7: for any prior pending-counter values,
`incrementPendingSandboxUsage(O, c, m, d)` with no exclusion followed by
`decrementPendingSandboxUsage(O, c, m, d)` leaves each pending counter at
its prior value (with the spec's "absence implies zero" reading of a
counter's value, `pendingIntValue`). -/
theorem pending_roundtrip_identity (env : Env) (s : Store) (c m d : Int)
    (hc : cellOk (s.pending QuotaType.cpu) = true)
    (hm : cellOk (s.pending QuotaType.memory) = true)
    (hd : cellOk (s.pending QuotaType.disk) = true) :
    ∃ res sMid sEnd, incrementPendingSandboxUsage env s c m d none = some (res, sMid) ∧
      decrementPendingSandboxUsage sMid (some c) (some m) (some d) = some sEnd ∧
      pendingIntValue sEnd QuotaType.cpu = pendingIntValue s QuotaType.cpu ∧
      pendingIntValue sEnd QuotaType.memory = pendingIntValue s QuotaType.memory ∧
      pendingIntValue sEnd QuotaType.disk = pendingIntValue s QuotaType.disk := by
  obtain ⟨s1, hs1, h1t, h1f, h1o, h1ok⟩ :=
    incrPendingStep_exists s QuotaType.cpu true c hc
  have hm1 : s1.pending QuotaType.memory = s.pending QuotaType.memory :=
    h1o QuotaType.memory (by decide)
  have hd1 : s1.pending QuotaType.disk = s.pending QuotaType.disk :=
    h1o QuotaType.disk (by decide)
  obtain ⟨s2, hs2, h2t, h2f, h2o, h2ok⟩ :=
    incrPendingStep_exists s1 QuotaType.memory true m (by rw [hm1]; exact hm)
  have hd2 : s2.pending QuotaType.disk = s.pending QuotaType.disk := by
    rw [h2o QuotaType.disk (by decide), hd1]
  have hc2 : s2.pending QuotaType.cpu = s1.pending QuotaType.cpu :=
    h2o QuotaType.cpu (by decide)
  obtain ⟨s3, hs3, h3t, h3f, h3o, h3ok⟩ :=
    incrPendingStep_exists s2 QuotaType.disk true d (by rw [hd2]; exact hd)
  have hc3v : s3.pending QuotaType.cpu =
      some ⟨CVal.num (pendingIntValue s QuotaType.cpu + c), some CACHE_TTL_SECONDS⟩ := by
    rw [h3o QuotaType.cpu (by decide), hc2, h1t rfl]
    rfl
  have hm3v : s3.pending QuotaType.memory =
      some ⟨CVal.num (pendingIntValue s QuotaType.memory + m), some CACHE_TTL_SECONDS⟩ := by
    rw [h3o QuotaType.memory (by decide), h2t rfl, hm1]
    rfl
  have hd3v : s3.pending QuotaType.disk =
      some ⟨CVal.num (pendingIntValue s QuotaType.disk + d), some CACHE_TTL_SECONDS⟩ := by
    rw [h3t rfl, hd2]
    rfl
  obtain ⟨t1, ht1, ht1v, ht1o, ht1ok⟩ :=
    decrPendingStep_exists s3 QuotaType.cpu c (by rw [hc3v]; rfl)
  have htm1 : t1.pending QuotaType.memory = s3.pending QuotaType.memory :=
    ht1o QuotaType.memory (by decide)
  have htd1 : t1.pending QuotaType.disk = s3.pending QuotaType.disk :=
    ht1o QuotaType.disk (by decide)
  obtain ⟨t2, ht2, ht2v, ht2o, ht2ok⟩ :=
    decrPendingStep_exists t1 QuotaType.memory m (by rw [htm1, hm3v]; rfl)
  have htd2 : t2.pending QuotaType.disk = s3.pending QuotaType.disk := by
    rw [ht2o QuotaType.disk (by decide), htd1]
  have htc2 : t2.pending QuotaType.cpu = t1.pending QuotaType.cpu :=
    ht2o QuotaType.cpu (by decide)
  obtain ⟨t3, ht3, ht3v, ht3o, ht3ok⟩ :=
    decrPendingStep_exists t2 QuotaType.disk d (by rw [htd2, hd3v]; rfl)
  refine ⟨⟨true, true, true⟩, s3, t3, ?_, ?_, ?_, ?_, ?_⟩
  · unfold incrementPendingSandboxUsage pendingIncrementFlags
    simp only [hs1, hs2, hs3]
  · unfold decrementPendingSandboxUsage
    simp only [Option.getD_some, ht1, ht2, ht3]
  · have : t3.pending QuotaType.cpu = t1.pending QuotaType.cpu := by
      rw [ht3o QuotaType.cpu (by decide), htc2]
    rw [pendingIntValue, this, ht1v, hc3v]
    simp [tonum]
  · have : t3.pending QuotaType.memory = t2.pending QuotaType.memory :=
      ht3o QuotaType.memory (by decide)
    rw [pendingIntValue, this, ht2v, htm1, hm3v]
    simp [tonum]
  · rw [pendingIntValue, ht3v, htd2, hd3v]
    simp [tonum]

theorem pending_roundtrip_identity_witness :
    cellOk (pendStore.pending QuotaType.cpu) = true ∧
    (∃ res sMid sEnd,
      incrementPendingSandboxUsage wEnv pendStore 4 8 20 none = some (res, sMid) ∧
      decrementPendingSandboxUsage sMid (some 4) (some 8) (some 20) = some sEnd ∧
      pendingIntValue sEnd QuotaType.cpu = pendingIntValue pendStore QuotaType.cpu ∧
      pendingIntValue sEnd QuotaType.memory = pendingIntValue pendStore QuotaType.memory ∧
      pendingIntValue sEnd QuotaType.disk = pendingIntValue pendStore QuotaType.disk) :=
  ⟨by decide,
    pending_roundtrip_identity wEnv pendStore 4 8 20 (by decide) (by decide) (by decide)⟩

-- ===== CLAIM C8 (corrected): decrement frame =====

/-- Claim C8 counterexample: with all three pending keys absent, a call
supplying no amounts turns the absent cpu pending key into a key holding
0 (with no TTL) — the claim's "an absent pending key stays absent" fails
because `tonumber("0") = 0` is truthy in Lua, so the DECRBY runs anyway. -/
theorem decrementPending_creates_absent_key_cex :
    (decrementPendingSandboxUsage emptyStore none none none).map
        (fun st => st.pending QuotaType.cpu) = some (some ⟨CVal.num 0, none⟩) ∧
    emptyStore.pending QuotaType.cpu = none ∧
    (decrementPendingSandboxUsage emptyStore none none none).map
        (fun st => st.pending QuotaType.cpu) ≠ some (emptyStore.pending QuotaType.cpu) := by
  decide

/-- Claim C8 as amended: every kind's DECRBY executes, with amount 0 for an
unsupplied kind: an existing pending counter keeps its TTL and is
decremented by the amount (so an unsupplied kind's existing value is
unchanged), but an absent pending counter is created with value
0 − amount and no TTL — in particular an absent key of an unsupplied kind
becomes a key holding 0 instead of staying absent; no key's TTL is
refreshed. -/
theorem decrementPending_frame_amended (s : Store) (cpu memory disk : Option Int)
    (hc : cellOk (s.pending QuotaType.cpu) = true)
    (hm : cellOk (s.pending QuotaType.memory) = true)
    (hd : cellOk (s.pending QuotaType.disk) = true) :
    ∃ s', decrementPendingSandboxUsage s cpu memory disk = some s' ∧
      s'.pending QuotaType.cpu =
        some ⟨CVal.num (pendingIntValue s QuotaType.cpu - cpu.getD 0),
          (s.pending QuotaType.cpu).bind Cell.ttl⟩ ∧
      s'.pending QuotaType.memory =
        some ⟨CVal.num (pendingIntValue s QuotaType.memory - memory.getD 0),
          (s.pending QuotaType.memory).bind Cell.ttl⟩ ∧
      s'.pending QuotaType.disk =
        some ⟨CVal.num (pendingIntValue s QuotaType.disk - disk.getD 0),
          (s.pending QuotaType.disk).bind Cell.ttl⟩ := by
  obtain ⟨t1, ht1, ht1v, ht1o, ht1ok⟩ :=
    decrPendingStep_exists s QuotaType.cpu (cpu.getD 0) hc
  have htm1 : t1.pending QuotaType.memory = s.pending QuotaType.memory :=
    ht1o QuotaType.memory (by decide)
  have htd1 : t1.pending QuotaType.disk = s.pending QuotaType.disk :=
    ht1o QuotaType.disk (by decide)
  obtain ⟨t2, ht2, ht2v, ht2o, ht2ok⟩ :=
    decrPendingStep_exists t1 QuotaType.memory (memory.getD 0) (by rw [htm1]; exact hm)
  have htd2 : t2.pending QuotaType.disk = s.pending QuotaType.disk := by
    rw [ht2o QuotaType.disk (by decide), htd1]
  have htc2 : t2.pending QuotaType.cpu = t1.pending QuotaType.cpu :=
    ht2o QuotaType.cpu (by decide)
  obtain ⟨t3, ht3, ht3v, ht3o, ht3ok⟩ :=
    decrPendingStep_exists t2 QuotaType.disk (disk.getD 0) (by rw [htd2]; exact hd)
  refine ⟨t3, ?_, ?_, ?_, ?_⟩
  · unfold decrementPendingSandboxUsage
    simp only [ht1, ht2, ht3]
  · rw [ht3o QuotaType.cpu (by decide), htc2, ht1v]
    rfl
  · rw [ht3o QuotaType.memory (by decide), ht2v, htm1]
    rfl
  · rw [ht3v, htd2]
    rfl

theorem decrementPending_frame_amended_witness :
    cellOk (pendStore.pending QuotaType.cpu) = true ∧
    (∃ s', decrementPendingSandboxUsage pendStore (some 1) none none = some s' ∧
      s'.pending QuotaType.cpu =
        some ⟨CVal.num (pendingIntValue pendStore QuotaType.cpu - (some (1 : Int)).getD 0),
          (pendStore.pending QuotaType.cpu).bind Cell.ttl⟩ ∧
      s'.pending QuotaType.memory =
        some ⟨CVal.num (pendingIntValue pendStore QuotaType.memory - (none : Option Int).getD 0),
          (pendStore.pending QuotaType.memory).bind Cell.ttl⟩ ∧
      s'.pending QuotaType.disk =
        some ⟨CVal.num (pendingIntValue pendStore QuotaType.disk - (none : Option Int).getD 0),
          (pendStore.pending QuotaType.disk).bind Cell.ttl⟩) :=
  ⟨by decide,
    decrementPending_frame_amended pendStore (some 1) none none
      (by decide) (by decide) (by decide)⟩

-- ===== CLAIM C9: getUsageOverview error cases =====

/-- Claim C9: `getUsageOverview` throws BadRequest when a supplied
organization object's id differs from `organizationId`; throws NotFound
when no object is supplied and no such organization exists; in all other
cases it returns the merged quota-and-usage DTO without error (quota
limits from the organization entity, usage from the three family
overviews, threading the store). -/
theorem getUsageOverview_error_cases (env : Env) (s : Store) (now : Int) (orgId : String) :
    (∀ org : Organization, org.id ≠ orgId →
      getUsageOverview env s now orgId (some org) = Except.error UsageError.badRequest) ∧
    (env.organizations.find? (fun o => o.id == orgId) = none →
      getUsageOverview env s now orgId none = Except.error UsageError.notFound) ∧
    (∀ org : Organization, org.id = orgId →
      getUsageOverview env s now orgId (some org) =
        Except.ok (getUsageOverviewResolved env s now orgId org)) ∧
    (∀ org : Organization, env.organizations.find? (fun o => o.id == orgId) = some org →
      getUsageOverview env s now orgId none =
        Except.ok (getUsageOverviewResolved env s now orgId org)) ∧
    (∀ org : Organization,
      (getUsageOverviewResolved env s now orgId org).1.totalCpuQuota = org.totalCpuQuota ∧
      (getUsageOverviewResolved env s now orgId org).1.totalMemoryQuota = org.totalMemoryQuota ∧
      (getUsageOverviewResolved env s now orgId org).1.totalDiskQuota = org.totalDiskQuota ∧
      (getUsageOverviewResolved env s now orgId org).1.totalSnapshotQuota = org.snapshotQuota ∧
      (getUsageOverviewResolved env s now orgId org).1.totalVolumeQuota = org.volumeQuota ∧
      (getUsageOverviewResolved env s now orgId org).1.currentCpuUsage =
        (getSandboxUsageOverview env s now orgId none).1.currentCpuUsage ∧
      (getUsageOverviewResolved env s now orgId org).1.currentMemoryUsage =
        (getSandboxUsageOverview env s now orgId none).1.currentMemoryUsage ∧
      (getUsageOverviewResolved env s now orgId org).1.currentDiskUsage =
        (getSandboxUsageOverview env s now orgId none).1.currentDiskUsage ∧
      (getUsageOverviewResolved env s now orgId org).1.currentSnapshotUsage =
        (getSnapshotUsageOverview env (getSandboxUsageOverview env s now orgId none).2
          now orgId).1 ∧
      (getUsageOverviewResolved env s now orgId org).1.currentVolumeUsage =
        (getVolumeUsageOverview env
          (getSnapshotUsageOverview env (getSandboxUsageOverview env s now orgId none).2
            now orgId).2 now orgId).1) := by
  refine ⟨?_, ?_, ?_, ?_, ?_⟩
  · intro org h
    unfold getUsageOverview
    simp [h]
  · intro h
    unfold getUsageOverview
    rw [h]
  · intro org h
    unfold getUsageOverview
    simp [h]
  · intro org h
    unfold getUsageOverview
    rw [h]
  · exact fun org => ⟨rfl, rfl, rfl, rfl, rfl, rfl, rfl, rfl, rfl, rfl⟩

theorem getUsageOverview_error_cases_witness :
    ((⟨"O1", 10, 20, 30, 5, 5⟩ : Organization).id ≠ "X") ∧
    getUsageOverview wEnv emptyStore 0 "X" (some ⟨"O1", 10, 20, 30, 5, 5⟩)
      = Except.error UsageError.badRequest ∧
    (wEnv.organizations.find? (fun o => o.id == "NOPE") = none) ∧
    getUsageOverview wEnv emptyStore 0 "NOPE" none = Except.error UsageError.notFound ∧
    getUsageOverview wEnv emptyStore 0 "O1" (some ⟨"O1", 10, 20, 30, 5, 5⟩)
      = Except.ok (getUsageOverviewResolved wEnv emptyStore 0 "O1" ⟨"O1", 10, 20, 30, 5, 5⟩) :=
  ⟨by decide,
    (getUsageOverview_error_cases wEnv emptyStore 0 "X").1 ⟨"O1", 10, 20, 30, 5, 5⟩ (by decide),
    by decide,
    (getUsageOverview_error_cases wEnv emptyStore 0 "NOPE").2.1 (by decide),
    (getUsageOverview_error_cases wEnv emptyStore 0 "O1").2.2.1 ⟨"O1", 10, 20, 30, 5, 5⟩ rfl⟩

-- ===== CLAIM C10: exclusion of an unknown sandbox is a no-op =====

/-- Claim C10: when `excludeSandboxId` matches no existing sandbox,
`getSandboxUsageOverview`, `getSandboxUsageOverviewWithPending` and
`incrementPendingSandboxUsage` return the same result and leave the store
in the same state as the same call with no `excludeSandboxId`. -/
theorem unknown_exclusion_noop (env : Env) (s : Store) (now : Int) (orgId : String)
    (ex : String) (c m d : Int) (h : findSandbox env ex = none) :
    getSandboxUsageOverview env s now orgId (some ex) =
      getSandboxUsageOverview env s now orgId none ∧
    getSandboxUsageOverviewWithPending env s now orgId (some ex) =
      getSandboxUsageOverviewWithPending env s now orgId none ∧
    incrementPendingSandboxUsage env s c m d (some ex) =
      incrementPendingSandboxUsage env s c m d none := by
  have hex1 : ∀ ov, excludeSandboxFromUsageOverview env ov ex = ov := by
    intro ov
    unfold excludeSandboxFromUsageOverview
    rw [h]
  have hex2 : ∀ ov, excludeSandboxFromUsageOverviewWithPending env ov ex = ov := by
    intro ov
    unfold excludeSandboxFromUsageOverviewWithPending
    rw [h]
  have hflag : pendingIncrementFlags env (some ex) = pendingIncrementFlags env none := by
    unfold pendingIncrementFlags
    simp only [h]
  refine ⟨?_, ?_, ?_⟩
  · unfold getSandboxUsageOverview
    cases hcachedVal : getCachedSandboxUsageOverview s now <;> simp [hex1]
  · unfold getSandboxUsageOverviewWithPending
    cases hcachedVal : getCachedSandboxUsageOverviewWithPending s now <;> simp [hex2]
  · unfold incrementPendingSandboxUsage
    rw [hflag]

theorem unknown_exclusion_noop_witness :
    findSandbox wEnv "GHOST" = none ∧
    getSandboxUsageOverview wEnv emptyStore 0 "O1" (some "GHOST") =
      getSandboxUsageOverview wEnv emptyStore 0 "O1" none ∧
    getSandboxUsageOverviewWithPending wEnv emptyStore 0 "O1" (some "GHOST") =
      getSandboxUsageOverviewWithPending wEnv emptyStore 0 "O1" none ∧
    incrementPendingSandboxUsage wEnv emptyStore 1 2 5 (some "GHOST") =
      incrementPendingSandboxUsage wEnv emptyStore 1 2 5 none :=
  ⟨by decide, unknown_exclusion_noop wEnv emptyStore 0 "O1" "GHOST" 1 2 5 (by decide)⟩

end OrgUsage
